import Mathlib

/-!
Verification of the newscard single-page application (src/src/App.tsx).

The application is React UI state plus two external calls (a generative
content-extraction provider and a DOM-to-PNG exporter).  We embed the
state, the event handlers and the extraction/export flows as pure Lean
functions.  Ambient browser/platform facilities (the bn-BD formatted
current date, the URL constructor, JSON.parse) are collected in an `Env`
record: each run of the program fixes one such environment.
-/

/-- The NewsData record of App.tsx (the spec's CardData): five string fields. -/
structure NewsData where
  title : String
  imageUrl : String
  logoUrl : String
  date : String
  source : String
deriving DecidableEq, Repr

/-- One entry of the GRADIENTS array: id, display name, CSS class. -/
structure Gradient where
  id : String
  name : String
  class_ : String
deriving DecidableEq, Repr

def gradBluePurple : Gradient :=
  ⟨"blue-purple", "Blue Purple", "bg-gradient-to-br from-blue-600 to-purple-700"⟩

def gradRedDark : Gradient :=
  ⟨"red-dark", "Red Dark", "bg-gradient-to-br from-red-600 to-red-900"⟩

def gradGreenTeal : Gradient :=
  ⟨"green-teal", "Green Teal", "bg-gradient-to-br from-emerald-600 to-teal-800"⟩

def gradOrangeRed : Gradient :=
  ⟨"orange-red", "Orange Red", "bg-gradient-to-br from-orange-500 to-red-600"⟩

def gradDarkGray : Gradient :=
  ⟨"dark-gray", "Dark Gray", "bg-gradient-to-br from-zinc-800 to-black"⟩

/-- The fixed GRADIENTS preset list of App.tsx (five entries). -/
def GRADIENTS : List Gradient :=
  [gradBluePurple, gradRedDark, gradGreenTeal, gradOrangeRed, gradDarkGray]

/-- The whole component state: the useState hooks of App. -/
structure AppState where
  url : String
  loading : Bool
  error : Option String
  newsData : NewsData
  selectedGradient : Gradient
  fontSize : Int
deriving DecidableEq, Repr

/-- Default title placeholder of the initial newsData state. -/
def DEFAULT_TITLE : String := "আপনার খবরের শিরোনাম এখানে দেখা যাবে"

/-- The generic placeholder image URL (initial imageUrl and extraction fallback). -/
def PLACEHOLDER_IMAGE : String := "https://picsum.photos/seed/news/800/450"

/-- The placeholder the hero image onError handler substitutes at display time. -/
def ERROR_PLACEHOLDER_IMAGE : String := "https://picsum.photos/seed/error/800/450"

/-- Default source placeholder of the initial newsData state. -/
def DEFAULT_SOURCE : String := "news.example.com"

/-- Extraction fallback title: the localized "title not found" placeholder. -/
def NOT_FOUND_TITLE : String := "শিরোনাম পাওয়া যায়নি"

/-- The localized extraction error message set on the failure path. -/
def EXTRACT_ERROR_MSG : String :=
  "খবরটি লোড করতে সমস্যা হয়েছে। অনুগ্রহ করে সঠিক লিংক দিন অথবা ম্যানুয়ালি তথ্য পরিবর্তন করুন।"

/-- The literal text of an empty JSON object, the default for a falsy response text. -/
def emptyObjectText : String := "\x7b\x7d"

/-- The structured extraction response after JSON.parse: the four schema fields,
each possibly absent (the schema marks date optional; a provider may omit or
empty any of them). -/
structure ExtractResponse where
  title : Option String
  imageUrl : Option String
  date : Option String
  source : Option String
deriving DecidableEq, Repr

/-- The response with no field present: JSON.parse of the empty object. -/
def ExtractResponse.empty : ExtractResponse := ⟨none, none, none, none⟩

/-- Ambient platform facilities fixed for one run of the program:
`today` is new Date().toLocaleDateString with the bn-BD locale options;
`hostname u` is new URL(u).hostname, `none` meaning the URL constructor
throws on `u`; `jsonParse` is JSON.parse specialized to the response
schema, `none` meaning it throws. -/
structure Env where
  today : String
  hostname : String → Option String
  jsonParse : String → Option ExtractResponse

/-- The initial state installed by the useState initializers of App. -/
def initialState (env : Env) : AppState where
  url := ""
  loading := false
  error := none
  newsData :=
    { title := DEFAULT_TITLE
      imageUrl := PLACEHOLDER_IMAGE
      logoUrl := ""
      date := env.today
      source := DEFAULT_SOURCE }
  selectedGradient := gradBluePurple
  fontSize := 24

/-- JavaScript truthiness selection `x || fb` on an optional string field of the
parsed response: an absent field or the empty string falls through to `fb`. -/
def jsOr (x : Option String) (fb : String) : String :=
  match x with
  | none => fb
  | some s => if s = "" then fb else s

/-- Evaluation of `new URL(url).hostname`: yields the hostname, or throws
(Except.error) when the constructor rejects the string. -/
def hostnameOrThrow : Option String → Except Unit String
  | some h => Except.ok h
  | none => Except.error ()

/-- The source field of the success update: `data.source || new URL(url).hostname`.
The URL constructor is only evaluated when data.source is falsy, and its throw
propagates. -/
def sourceValue (data : ExtractResponse) (host : Option String) : Except Unit String :=
  match data.source with
  | none => hostnameOrThrow host
  | some s => if s = "" then hostnameOrThrow host else Except.ok s

/-- The setNewsData updater of the extraction success path (App.tsx lines 96-102):
spreads prev and overwrites the four extracted fields with truthiness fallbacks.
It throws (Except.error) exactly when the source fallback must parse an invalid
URL.  React runs this updater during the next render, outside the try/catch of
extractNewsData. -/
def applyExtractSuccess (prev : NewsData) (data : ExtractResponse)
    (today : String) (host : Option String) : Except Unit NewsData :=
  match sourceValue data host with
  | Except.error e => Except.error e
  | Except.ok src =>
    Except.ok
      { prev with
        title := jsOr data.title NOT_FOUND_TITLE
        imageUrl := jsOr data.imageUrl PLACEHOLDER_IMAGE
        date := jsOr data.date today
        source := src }

/-- Outcome of the provider request plus JSON.parse, supplied by the
environment: either some step of request/parse threw, or a parsed response. -/
inductive ExtractOutcome where
  | failure
  | parsed (data : ExtractResponse)
deriving DecidableEq, Repr

/-- The text handed to JSON.parse: `response.text || '\x7b\x7d'` — an undefined
or empty response text is replaced by the empty-object literal. -/
def responseTextToParse (text : Option String) : String :=
  match text with
  | none => emptyObjectText
  | some s => if s = "" then emptyObjectText else s

/-- The request/parse outcome determined by the provider response text:
JSON.parse of the defaulted text, a parse throw giving the failure outcome. -/
def extractOutcomeOfText (env : Env) (text : Option String) : ExtractOutcome :=
  match env.jsonParse (responseTextToParse text) with
  | some data => ExtractOutcome.parsed data
  | none => ExtractOutcome.failure

/-- Result of one invocation of extractNewsData: the component state after the
handler and the subsequent render, whether a provider request was issued, and
whether the deferred success updater threw outside the try/catch (a render-phase
crash). -/
structure ExtractRun where
  state : AppState
  requested : Bool
  crashed : Bool
deriving DecidableEq, Repr

/-- extractNewsData (App.tsx lines 68-109).  Empty url: immediate return.
Otherwise loading is set, error cleared, one request issued; a throw in the
request or parse is caught, setting the localized message; a parsed response
queues the success updater, which React applies outside the try/catch — if the
updater itself throws (invalid URL in the source fallback) the error message is
NOT set and newsData stays unchanged.  The finally clause clears loading in
every case. -/
def extractNewsData (env : Env) (s : AppState) (outcome : ExtractOutcome) : ExtractRun :=
  if s.url = "" then ⟨s, false, false⟩
  else
    match outcome with
    | ExtractOutcome.failure =>
      ⟨{ s with loading := false, error := some EXTRACT_ERROR_MSG }, true, false⟩
    | ExtractOutcome.parsed data =>
      match applyExtractSuccess s.newsData data env.today (env.hostname s.url) with
      | Except.ok nd =>
        ⟨{ s with loading := false, error := none, newsData := nd }, true, false⟩
      | Except.error _ =>
        ⟨{ s with loading := false, error := none }, true, true⟩

/-- Accumulating decimal digit parser over a character list. -/
def decNatAux : List Char → Nat → Option Nat
  | [], acc => some acc
  | c :: cs, acc =>
    if c.isDigit then decNatAux cs (acc * 10 + (c.toNat - 48)) else none

/-- Signed decimal parse of a character list; the empty list coerces to 0. -/
def jsNumberChars : List Char → Option Int
  | [] => some 0
  | '-' :: cs =>
    if cs.isEmpty then none else (decNatAux cs 0).map (fun n => -(n : Int))
  | cs => (decNatAux cs 0).map (fun n => (n : Int))

/-- JavaScript Number() on the value strings a type=number input yields at
change events: a decimal integer string, or the empty string which coerces
to 0.  (The model restricts the float range to integers.) -/
def jsNumber (v : String) : Int :=
  (jsNumberChars v.data).getD 0

/-- The user-interface events that mutate state: the url field, the generate
button (with the environment-determined outcome), the manual edit fields, the
two file uploads (delivering a data URI), the font-size input, and the gradient
swatch buttons (one per GRADIENTS entry). -/
inductive Event where
  | setUrlEv (v : String)
  | extract (outcome : ExtractOutcome)
  | setTitle (v : String)
  | setDate (v : String)
  | setSource (v : String)
  | uploadImage (dataUri : String)
  | uploadLogo (dataUri : String)
  | setFontSizeEv (v : String)
  | selectGradient (i : Fin GRADIENTS.length)

/-- The state transition of each event handler of App.tsx. -/
def step (env : Env) (s : AppState) (e : Event) : AppState :=
  match e with
  | Event.setUrlEv v => { s with url := v }
  | Event.extract outcome => (extractNewsData env s outcome).state
  | Event.setTitle v => { s with newsData := { s.newsData with title := v } }
  | Event.setDate v => { s with newsData := { s.newsData with date := v } }
  | Event.setSource v => { s with newsData := { s.newsData with source := v } }
  | Event.uploadImage d => { s with newsData := { s.newsData with imageUrl := d } }
  | Event.uploadLogo d => { s with newsData := { s.newsData with logoUrl := d } }
  | Event.setFontSizeEv v => { s with fontSize := jsNumber v }
  | Event.selectGradient i => { s with selectedGradient := GRADIENTS.get i }

/-- The state reached from the initial state by a sequence of events. -/
def reach (env : Env) (evs : List Event) : AppState :=
  evs.foldl (step env) (initialState env)

/-- What the logo badge renders: an img element when logoUrl is truthy,
otherwise the built-in fallback glyph. -/
inductive LogoView where
  | img (src : String)
  | fallbackGlyph
deriving DecidableEq, Repr

/-- The rendered card composition: projection of the current state onto the
fixed 500x500 layout. -/
structure CardView where
  heroSrc : String
  logo : LogoView
  title : String
  date : String
  source : String
  gradientClass : String
  fontSizePx : Int
deriving DecidableEq, Repr

/-- The declarative render of the card preview (App.tsx lines 283-343): a pure
function of the current state. -/
def renderCard (s : AppState) : CardView where
  heroSrc := s.newsData.imageUrl
  logo :=
    if s.newsData.logoUrl = "" then LogoView.fallbackGlyph
    else LogoView.img s.newsData.logoUrl
  title := s.newsData.title
  date := s.newsData.date
  source := s.newsData.source
  gradientClass := s.selectedGradient.class_
  fontSizePx := s.fontSize

/-- The two image elements of the card. -/
inductive ImgField where
  | hero
  | logo
deriving DecidableEq, Repr

/-- Display-time handling of an image load failure: the hero img carries an
onError handler rewriting its src to the error placeholder; the logo img
carries no error handler at all, so a failing logo changes nothing. -/
def onLoadError (v : CardView) (f : ImgField) : CardView :=
  match f with
  | ImgField.hero => { v with heroSrc := ERROR_PLACEHOLDER_IMAGE }
  | ImgField.logo => v

/-- An image load failure at the application level: the handlers touch only
the DOM img element (the view); neither calls any state setter. -/
def appOnImgError (s : AppState) (v : CardView) (f : ImgField) : AppState × CardView :=
  (s, onLoadError v f)

/-- Outcome of the toPng serialization, supplied by the environment. -/
inductive ExportOutcome where
  | ok (dataUrl : String)
  | err
deriving DecidableEq, Repr

/-- Result of one invocation of downloadCard: the state after the handler,
whether console.error was called, and the triggered download (filename and
href) if any. -/
structure DownloadRun where
  state : AppState
  logged : Bool
  download : Option (String × String)
deriving DecidableEq, Repr

/-- downloadCard (App.tsx lines 111-123).  A missing card ref returns
immediately; a successful serialization triggers one download named with the
timestamp; a serialization throw is caught and logged, nothing else happens.
No branch touches the application state. -/
def downloadCard (s : AppState) (cardPresent : Bool) (now : Nat)
    (outcome : ExportOutcome) : DownloadRun :=
  if cardPresent then
    match outcome with
    | ExportOutcome.ok dataUrl =>
      ⟨s, false, some ("news-card-" ++ toString now ++ ".png", dataUrl)⟩
    | ExportOutcome.err => ⟨s, true, none⟩
  else ⟨s, false, none⟩

/-- A demo resolved hostname, for concrete instantiations. -/
def hostDemo : String := "example.com"

/-- A demo article URL the demo environment's URL constructor accepts. -/
def urlDemo : String := "https://example.com/a"

/-- A concrete demo environment: fixed formatted date, a URL parser accepting
exactly urlDemo, and a JSON parser accepting exactly the empty object text. -/
def envDemo : Env where
  today := "১২ অক্টোবর ২০২৫"
  hostname := fun u => if u = urlDemo then some hostDemo else none
  jsonParse := fun t => if t = emptyObjectText then some ExtractResponse.empty else none

/-- The initial state with the demo URL typed into the url field. -/
def sDemo : AppState := { initialState envDemo with url := urlDemo }

/-- The initial state with a string the URL constructor rejects in the url field. -/
def sBadDemo : AppState := { initialState envDemo with url := "notaurl" }

/-- A demo parsed response carrying title, imageUrl and source but no date. -/
def dataDemo : ExtractResponse :=
  ⟨some "টেস্ট শিরোনাম", some "https://x/y.jpg", none, some "x.com"⟩

/-- A state whose newsData carries a non-empty logo URL. -/
def sLogoDemo : AppState :=
  { initialState envDemo with
    newsData := { (initialState envDemo).newsData with logoUrl := "https://x/logo.png" } }

theorem jsOr_some_ne (t fb : String) (h : t ≠ "") : jsOr (some t) fb = t := by
  simp [jsOr, h]

theorem jsOr_falsy (x : Option String) (fb : String) (h : x = none ∨ x = some "") :
    jsOr x fb = fb := by
  rcases h with h | h <;> simp [h, jsOr]

theorem sourceValue_some (data : ExtractResponse) (h : String) :
    sourceValue data (some h) = Except.ok (jsOr data.source h) := by
  cases hds : data.source with
  | none => simp [sourceValue, hds, hostnameOrThrow, jsOr]
  | some s =>
    by_cases hs : s = "" <;> simp [sourceValue, hds, hostnameOrThrow, jsOr, hs]

theorem applyExtractSuccess_ok_host (prev : NewsData) (data : ExtractResponse)
    (today h : String) :
    applyExtractSuccess prev data today (some h) =
      Except.ok
        { prev with
          title := jsOr data.title NOT_FOUND_TITLE
          imageUrl := jsOr data.imageUrl PLACEHOLDER_IMAGE
          date := jsOr data.date today
          source := jsOr data.source h } := by
  unfold applyExtractSuccess
  rw [sourceValue_some]

theorem extractNewsData_parsed (env : Env) (s : AppState) (data : ExtractResponse)
    (hurl : s.url ≠ "") :
    extractNewsData env s (ExtractOutcome.parsed data) =
      (match applyExtractSuccess s.newsData data env.today (env.hostname s.url) with
       | Except.ok nd =>
         ⟨{ s with loading := false, error := none, newsData := nd }, true, false⟩
       | Except.error _ =>
         ⟨{ s with loading := false, error := none }, true, true⟩ : ExtractRun) := by
  unfold extractNewsData
  rw [if_neg hurl]

theorem applyExtractSuccess_ok_logoUrl {prev : NewsData} {data : ExtractResponse}
    {today : String} {host : Option String} {nd : NewsData}
    (h : applyExtractSuccess prev data today host = Except.ok nd) :
    nd.logoUrl = prev.logoUrl := by
  unfold applyExtractSuccess at h
  split at h
  · exact Except.noConfusion h
  · injection h with he
    rw [← he]

/-- The success-path field mapping property: no crash, and for each of the four
extracted fields, a present non-empty response value is taken verbatim while an
absent or empty one is replaced by its fallback (today's formatted date for
date, the resolved hostname for source). -/
def FieldMapping (r : ExtractRun) (data : ExtractResponse) (today fbSource : String) : Prop :=
  r.crashed = false ∧
  (∀ t, data.title = some t → t ≠ "" → r.state.newsData.title = t) ∧
  ((data.title = none ∨ data.title = some "") → r.state.newsData.title = NOT_FOUND_TITLE) ∧
  (∀ t, data.imageUrl = some t → t ≠ "" → r.state.newsData.imageUrl = t) ∧
  ((data.imageUrl = none ∨ data.imageUrl = some "") →
    r.state.newsData.imageUrl = PLACEHOLDER_IMAGE) ∧
  (∀ t, data.date = some t → t ≠ "" → r.state.newsData.date = t) ∧
  ((data.date = none ∨ data.date = some "") → r.state.newsData.date = today) ∧
  (∀ t, data.source = some t → t ≠ "" → r.state.newsData.source = t) ∧
  ((data.source = none ∨ data.source = some "") → r.state.newsData.source = fbSource)

/-- C1: for every extraction response parsed on the success path, each of
title, imageUrl, date, source that is present and non-empty overwrites the
corresponding CardData field verbatim; each absent or empty field receives its
fallback: the not-found placeholder title, the generic placeholder image URL,
the current bn-BD formatted date, and the hostname parsed from the input URL. -/
theorem extract_success_field_mapping (env : Env) (s : AppState)
    (data : ExtractResponse) (h : String)
    (hurl : s.url ≠ "") (hhost : env.hostname s.url = some h) :
    FieldMapping (extractNewsData env s (ExtractOutcome.parsed data)) data env.today h := by
  have e := extractNewsData_parsed env s data hurl
  rw [hhost, applyExtractSuccess_ok_host] at e
  unfold FieldMapping
  rw [e]
  refine ⟨rfl, ?_, ?_, ?_, ?_, ?_, ?_, ?_, ?_⟩
  · intro t ht hne
    show jsOr data.title NOT_FOUND_TITLE = t
    rw [ht]; exact jsOr_some_ne t _ hne
  · intro hf
    exact jsOr_falsy _ _ hf
  · intro t ht hne
    show jsOr data.imageUrl PLACEHOLDER_IMAGE = t
    rw [ht]; exact jsOr_some_ne t _ hne
  · intro hf
    exact jsOr_falsy _ _ hf
  · intro t ht hne
    show jsOr data.date env.today = t
    rw [ht]; exact jsOr_some_ne t _ hne
  · intro hf
    exact jsOr_falsy _ _ hf
  · intro t ht hne
    show jsOr data.source h = t
    rw [ht]; exact jsOr_some_ne t _ hne
  · intro hf
    exact jsOr_falsy _ _ hf

/-- Witness for C1 at the demo environment, state and response. -/
theorem extract_success_field_mapping_witness :
    sDemo.url ≠ "" ∧ envDemo.hostname sDemo.url = some hostDemo ∧
    FieldMapping (extractNewsData envDemo sDemo (ExtractOutcome.parsed dataDemo))
      dataDemo envDemo.today hostDemo :=
  ⟨by decide, by decide,
    extract_success_field_mapping envDemo sDemo dataDemo hostDemo (by decide) (by decide)⟩

/-- C2: a failing extraction call (request throw or parse throw) leaves
CardData exactly as before the call, sets the localized error message, and
leaves loading false after the call. -/
theorem extract_failure_atomic (env : Env) (s : AppState) (hurl : s.url ≠ "") :
    (extractNewsData env s ExtractOutcome.failure).state.newsData = s.newsData ∧
    (extractNewsData env s ExtractOutcome.failure).state.error = some EXTRACT_ERROR_MSG ∧
    (extractNewsData env s ExtractOutcome.failure).state.loading = false := by
  unfold extractNewsData
  rw [if_neg hurl]
  exact ⟨rfl, rfl, rfl⟩

/-- Witness for C2 at the demo environment and state. -/
theorem extract_failure_atomic_witness :
    sDemo.url ≠ "" ∧
    ((extractNewsData envDemo sDemo ExtractOutcome.failure).state.newsData = sDemo.newsData ∧
     (extractNewsData envDemo sDemo ExtractOutcome.failure).state.error =
       some EXTRACT_ERROR_MSG ∧
     (extractNewsData envDemo sDemo ExtractOutcome.failure).state.loading = false) :=
  ⟨by decide, extract_failure_atomic envDemo sDemo (by decide)⟩

/-- C3: with an empty url field the extraction handler is a no-op: no request
is issued and the state (CardData, loading, error included) is unchanged. -/
theorem extract_empty_url_noop (env : Env) (s : AppState) (outcome : ExtractOutcome)
    (hurl : s.url = "") :
    extractNewsData env s outcome = ⟨s, false, false⟩ := by
  unfold extractNewsData
  rw [if_pos hurl]

/-- Witness for C3 at the demo environment's initial state. -/
theorem extract_empty_url_noop_witness :
    (initialState envDemo).url = "" ∧
    extractNewsData envDemo (initialState envDemo) ExtractOutcome.failure =
      ⟨initialState envDemo, false, false⟩ :=
  ⟨rfl, extract_empty_url_noop envDemo (initialState envDemo) ExtractOutcome.failure rfl⟩

theorem extractRun_state_frame (env : Env) (s : AppState) (o : ExtractOutcome) :
    (extractNewsData env s o).state.url = s.url ∧
    (extractNewsData env s o).state.selectedGradient = s.selectedGradient ∧
    (extractNewsData env s o).state.fontSize = s.fontSize := by
  by_cases hurl : s.url = ""
  · unfold extractNewsData
    rw [if_pos hurl]
    exact ⟨rfl, rfl, rfl⟩
  · cases o with
    | failure =>
      unfold extractNewsData
      rw [if_neg hurl]
      exact ⟨rfl, rfl, rfl⟩
    | parsed data =>
      rw [extractNewsData_parsed env s data hurl]
      cases h : applyExtractSuccess s.newsData data env.today (env.hostname s.url) with
      | error e => exact ⟨rfl, rfl, rfl⟩
      | ok nd => exact ⟨rfl, rfl, rfl⟩

theorem step_selectedGradient_mem (env : Env) (s : AppState) (e : Event)
    (hs : s.selectedGradient ∈ GRADIENTS) :
    (step env s e).selectedGradient ∈ GRADIENTS := by
  cases e with
  | setUrlEv v => exact hs
  | extract o =>
    show (extractNewsData env s o).state.selectedGradient ∈ GRADIENTS
    rw [(extractRun_state_frame env s o).2.1]
    exact hs
  | setTitle v => exact hs
  | setDate v => exact hs
  | setSource v => exact hs
  | uploadImage d => exact hs
  | uploadLogo d => exact hs
  | setFontSizeEv v => exact hs
  | selectGradient i =>
    show GRADIENTS.get i ∈ GRADIENTS
    exact GRADIENTS.get_mem i.1 i.2

/-- C4: along every event sequence from the initial state (extractions, manual
edits, theme selections), the selected gradient is one of the five fixed
GRADIENTS presets. -/
theorem selectedGradient_always_preset (env : Env) (evs : List Event) :
    GRADIENTS.length = 5 ∧ (reach env evs).selectedGradient ∈ GRADIENTS := by
  refine ⟨rfl, ?_⟩
  have main : ∀ s : AppState, s.selectedGradient ∈ GRADIENTS →
      (evs.foldl (step env) s).selectedGradient ∈ GRADIENTS := by
    induction evs with
    | nil => intro s hs; exact hs
    | cons e t ih =>
      intro s hs
      exact ih (step env s e) (step_selectedGradient_mem env s e hs)
  have h0 : (initialState env).selectedGradient ∈ GRADIENTS := by
    show gradBluePurple ∈ GRADIENTS
    simp [GRADIENTS]
  exact main (initialState env) h0

/-- C5 counterexample: the number control accepts the input string 0, and the
resulting stored fontSize is 0 — not a positive integer. -/
theorem fontSize_not_always_positive :
    (step envDemo (initialState envDemo) (Event.setFontSizeEv "0")).fontSize = 0 ∧
    ¬ (0 < (step envDemo (initialState envDemo) (Event.setFontSizeEv "0")).fontSize) := by
  constructor
  · show jsNumber "0" = 0
    decide
  · show ¬ (0 < jsNumber "0")
    decide

/-- C5 amended: fontSize is initialized to the positive integer 24; a
font-size edit stores the Number coercion of the input unvalidated, so the
stored value is an integer but need not be positive (zero and negative inputs
are stored as given). -/
theorem fontSize_init_and_edit (env : Env) (s : AppState) (v : String) :
    (initialState env).fontSize = 24 ∧ ((0:Int) < 24) ∧
    (step env s (Event.setFontSizeEv v)).fontSize = jsNumber v :=
  ⟨rfl, by norm_num, rfl⟩

/-- C6 counterexample: a load failure of a non-empty logo URL substitutes
nothing — the logo img has no error handler — so the rendered logo keeps its
failing source, which is neither placeholder image. -/
theorem logo_error_no_substitution :
    onLoadError (renderCard sLogoDemo) ImgField.logo = renderCard sLogoDemo ∧
    (renderCard sLogoDemo).logo = LogoView.img "https://x/logo.png" ∧
    "https://x/logo.png" ≠ ERROR_PLACEHOLDER_IMAGE ∧
    "https://x/logo.png" ≠ PLACEHOLDER_IMAGE := by
  refine ⟨rfl, ?_, by decide, by decide⟩
  decide

/-- C6 amended: a hero image load failure substitutes the error placeholder at
display time; the logo img carries no error handler, so a logo load failure
leaves the rendered view unchanged; neither handler mutates the application
state, CardData included. -/
theorem image_error_display_only (s : AppState) (v : CardView) (f : ImgField) :
    (onLoadError (renderCard s) ImgField.hero).heroSrc = ERROR_PLACEHOLDER_IMAGE ∧
    onLoadError v ImgField.logo = v ∧
    (appOnImgError s v f).1 = s :=
  ⟨rfl, rfl, rfl⟩

/-- C7: a failing PNG serialization is logged to the console and silently
absorbed: the state (CardData, presentation, loading, error) is returned
unchanged, no download is triggered. -/
theorem downloadCard_failure_silent (s : AppState) (now : Nat) :
    downloadCard s true now ExportOutcome.err = ⟨s, true, none⟩ := rfl

/-- C8: a successful extraction touches nothing outside the four extracted
fields: logoUrl, the selected gradient, the font size and the url input keep
their values from before the call. -/
theorem extract_success_frame (env : Env) (s : AppState) (data : ExtractResponse)
    (hurl : s.url ≠ "") :
    (extractNewsData env s (ExtractOutcome.parsed data)).state.newsData.logoUrl =
      s.newsData.logoUrl ∧
    (extractNewsData env s (ExtractOutcome.parsed data)).state.selectedGradient =
      s.selectedGradient ∧
    (extractNewsData env s (ExtractOutcome.parsed data)).state.fontSize = s.fontSize ∧
    (extractNewsData env s (ExtractOutcome.parsed data)).state.url = s.url := by
  rw [extractNewsData_parsed env s data hurl]
  cases h : applyExtractSuccess s.newsData data env.today (env.hostname s.url) with
  | error e => exact ⟨rfl, rfl, rfl, rfl⟩
  | ok nd => exact ⟨applyExtractSuccess_ok_logoUrl h, rfl, rfl, rfl⟩

/-- Witness for C8 at the demo environment, state and response. -/
theorem extract_success_frame_witness :
    sDemo.url ≠ "" ∧
    ((extractNewsData envDemo sDemo (ExtractOutcome.parsed dataDemo)).state.newsData.logoUrl =
       sDemo.newsData.logoUrl ∧
     (extractNewsData envDemo sDemo (ExtractOutcome.parsed dataDemo)).state.selectedGradient =
       sDemo.selectedGradient ∧
     (extractNewsData envDemo sDemo (ExtractOutcome.parsed dataDemo)).state.fontSize =
       sDemo.fontSize ∧
     (extractNewsData envDemo sDemo (ExtractOutcome.parsed dataDemo)).state.url = sDemo.url) :=
  ⟨by decide, extract_success_frame envDemo sDemo dataDemo (by decide)⟩

/-- All four extraction fallbacks applied at once, with success flags: the
not-found title, the placeholder image, today's formatted date, the resolved
hostname, no error message, loading cleared, no crash. -/
def AllFallbacks (r : ExtractRun) (today h : String) : Prop :=
  r.state.newsData.title = NOT_FOUND_TITLE ∧
  r.state.newsData.imageUrl = PLACEHOLDER_IMAGE ∧
  r.state.newsData.date = today ∧
  r.state.newsData.source = h ∧
  r.state.error = none ∧
  r.state.loading = false ∧
  r.crashed = false

/-- C9: an empty or undefined provider response text is defaulted to the
empty-object literal, parses to the empty response, and the call counts as a
success: all four fields get their fallbacks and no error message is shown. -/
theorem extract_empty_text_success (env : Env) (s : AppState) (text : Option String)
    (h : String) (hurl : s.url ≠ "") (hhost : env.hostname s.url = some h)
    (hjson : env.jsonParse emptyObjectText = some ExtractResponse.empty)
    (htext : text = none ∨ text = some "") :
    responseTextToParse text = emptyObjectText ∧
    extractOutcomeOfText env text = ExtractOutcome.parsed ExtractResponse.empty ∧
    AllFallbacks (extractNewsData env s (extractOutcomeOfText env text)) env.today h := by
  have ht : responseTextToParse text = emptyObjectText := by
    rcases htext with h1 | h1 <;> simp [h1, responseTextToParse]
  have ho : extractOutcomeOfText env text = ExtractOutcome.parsed ExtractResponse.empty := by
    simp [extractOutcomeOfText, ht, hjson]
  refine ⟨ht, ho, ?_⟩
  rw [ho]
  have e := extractNewsData_parsed env s ExtractResponse.empty hurl
  rw [hhost, applyExtractSuccess_ok_host] at e
  unfold AllFallbacks
  rw [e]
  exact ⟨rfl, rfl, rfl, rfl, rfl, rfl, rfl⟩

/-- Witness for C9 at the demo environment and state, with undefined text. -/
theorem extract_empty_text_success_witness :
    sDemo.url ≠ "" ∧ envDemo.hostname sDemo.url = some hostDemo ∧
    envDemo.jsonParse emptyObjectText = some ExtractResponse.empty ∧
    (responseTextToParse none = emptyObjectText ∧
     extractOutcomeOfText envDemo none = ExtractOutcome.parsed ExtractResponse.empty ∧
     AllFallbacks (extractNewsData envDemo sDemo (extractOutcomeOfText envDemo none))
       envDemo.today hostDemo) :=
  ⟨by decide, by decide, by decide,
    extract_empty_text_success envDemo sDemo none hostDemo (by decide) (by decide)
      (by decide) (Or.inl rfl)⟩

/-- Behaviour of the unguarded source fallback inside the deferred updater:
with a parseable input URL the update succeeds and stores the hostname; with
an unparseable one the updater throws outside the try/catch, so no error
message is set, loading is false, and newsData is untouched. -/
def SourceFallbackBehavior (env : Env) (s : AppState) (data : ExtractResponse) : Prop :=
  (∀ h, env.hostname s.url = some h →
    (extractNewsData env s (ExtractOutcome.parsed data)).crashed = false ∧
    (extractNewsData env s (ExtractOutcome.parsed data)).state.newsData.source = h) ∧
  (env.hostname s.url = none →
    (extractNewsData env s (ExtractOutcome.parsed data)).crashed = true ∧
    (extractNewsData env s (ExtractOutcome.parsed data)).state.error = none ∧
    (extractNewsData env s (ExtractOutcome.parsed data)).state.loading = false ∧
    (extractNewsData env s (ExtractOutcome.parsed data)).state.newsData = s.newsData)

/-- C10: when the response's source is absent or empty, the success update
computes new URL(url).hostname with no guard inside the deferred state updater:
a syntactically valid url yields its hostname, an invalid one throws outside
the try/catch of the extraction call (no error message, newsData untouched). -/
theorem extract_source_fallback_parse (env : Env) (s : AppState) (data : ExtractResponse)
    (hurl : s.url ≠ "") (hsrc : data.source = none ∨ data.source = some "") :
    SourceFallbackBehavior env s data := by
  constructor
  · intro h hhost
    have e := extractNewsData_parsed env s data hurl
    rw [hhost, applyExtractSuccess_ok_host] at e
    rw [e]
    exact ⟨rfl, jsOr_falsy _ _ hsrc⟩
  · intro hnone
    have e := extractNewsData_parsed env s data hurl
    have hav : applyExtractSuccess s.newsData data env.today (env.hostname s.url) =
        Except.error () := by
      rw [hnone]
      unfold applyExtractSuccess
      have hsv : sourceValue data none = Except.error () := by
        rcases hsrc with h1 | h1 <;> simp [sourceValue, h1, hostnameOrThrow]
      rw [hsv]
    rw [hav] at e
    rw [e]
    exact ⟨rfl, rfl, rfl, rfl⟩

/-- Witness for C10 at the demo environment with an unparseable url. -/
theorem extract_source_fallback_parse_witness :
    sBadDemo.url ≠ "" ∧
    (ExtractResponse.empty.source = none ∨ ExtractResponse.empty.source = some "") ∧
    SourceFallbackBehavior envDemo sBadDemo ExtractResponse.empty :=
  ⟨by decide, Or.inl rfl,
    extract_source_fallback_parse envDemo sBadDemo ExtractResponse.empty (by decide)
      (Or.inl rfl)⟩
